import Mathlib

/-!
Verification of the task-lifecycle core of `src/taskmanager.py`.

Shallow embedding conventions:
* timestamps (`datetime`) are modelled as `Int` epoch seconds; `datetime.now()`
  becomes an explicit `now : Int` parameter; `timedelta(minutes=5)` is `5 * 60`;
* a bullet dict `{"text": ..., "done": ...}` is the structure `Bullet`;
* status strings are kept verbatim from the source: "not started",
  "in progress...", "completed", "expired";
* the interactive input-parsing loops (`input()`, `try/except` retry loops) are
  the out-of-scope I/O shell; each operation takes the already-acquired values
  as parameters.  Everything the operation executes on the store once its
  inputs are acquired is embedded statement by statement — following the
  source's actual control flow: in `complete_bullet` the whole working block
  is nested inside the id-entry `while True` loop after its `break`, so the
  executed function body ends with the acquisition and the block is kept
  separately as `complete_bullet_unreachable_block`;
* `manager.save()` is modelled by a `Bool` in each operation result recording
  whether the store was persisted; a bare `manager.save` (no call) in the
  source leaves that flag `false`.
-/

namespace TaskMgr

/-- A checklist item: `{"text": text, "done": done}` in the source. -/
structure Bullet where
  text : String
  done : Bool
deriving DecidableEq

/-- `Task.__init__` fields. `created_date` is `none` until set dynamically
(`from_dict` sets it; `to_dict` reads it through `getattr` with a default).
`expiry_update` models the attribute that `edit_task` creates dynamically via
`task.expiry_update = ...`; it is `none` until that assignment happens. -/
structure Task where
  id : Nat
  title : String
  description : String
  expiry_date : Int
  priority : String
  bullets : List Bullet
  status : String
  created_date : Option Int := none
  expiry_update : Option Int := none
deriving DecidableEq

/-- `Task.__init__(id, title, description, expiry_date, priority, bullets)`:
sets the fields and `self.status = "not started"`. -/
def Task.make (id : Nat) (title description : String) (expiry_date : Int)
    (priority : String) (bullets : List Bullet) : Task :=
  { id := id, title := title, description := description,
    expiry_date := expiry_date, priority := priority, bullets := bullets,
    status := "not started" }

/-- `Task.is_expired`: `datetime.now() > self.expiry_date`. -/
def Task.is_expired (t : Task) (now : Int) : Bool :=
  decide (now > t.expiry_date)

/-- `Task.is_deletable`: `datetime.now() > self.expiry_date + timedelta(minutes=5)`. -/
def Task.is_deletable (t : Task) (now : Int) : Bool :=
  decide (now > t.expiry_date + 5 * 60)

/-- `Task.update_status`.  Note two source facts embedded verbatim:
`all_done = all(b["done"] for b in self.bullets)` is `True` on an empty
checklist (Python `all([])`), and
`any_done = any(["done"] for b in self.bullets)` tests the truthiness of the
constant non-empty list `["done"]` once per bullet, so it is `True` exactly
when the checklist is non-empty. -/
def Task.update_status (t : Task) (now : Int) : Task :=
  let is_expired := t.is_expired now
  let all_done := t.bullets.all (fun b => b.done)
  let any_done := t.bullets.any (fun _ => true)
  if is_expired then { t with status := "expired" }
  else if all_done then { t with status := "completed" }
  else if any_done then { t with status := "in progress..." }
  else { t with status := "not started" }

/-- `Task.lock_check`: `self.status in ["completed", "expired"]`. -/
def Task.lock_check (t : Task) : Bool :=
  t.status == "completed" || t.status == "expired"

/-- A concrete unexpired task with an empty checklist (expiry 100). -/
def emptyChecklistTask : Task :=
  Task.make 1 "A" "desc" 100 "low" []

/-- A concrete unexpired task with one not-done bullet (expiry 100). -/
def oneTodoTask : Task :=
  Task.make 1 "B" "desc" 100 "low" [{ text := "b1", done := false }]

/-- C4: the claim says a task with an empty checklist is never `completed`
while unexpired.  The code disagrees: Python `all([])` is `True`, so an
unexpired task with no bullets gets status "completed" (here at `now = 50`,
before the expiry 100). -/
theorem c4_empty_checklist_completed_bug :
    (50 : Int) ≤ emptyChecklistTask.expiry_date ∧
    (emptyChecklistTask.update_status 50).status = "completed" := by
  constructor
  · decide
  · rfl

/-- C5: the claim says an unexpired task with a non-empty checklist and no
bullet done has status `not_started`.  The code's `any_done` test is vacuously
true on any non-empty checklist, so the task gets "in progress..." instead
(here at `now = 50`, before the expiry 100, with one not-done bullet). -/
theorem c5_none_done_in_progress_bug :
    (50 : Int) ≤ oneTodoTask.expiry_date ∧
    oneTodoTask.bullets.all (fun b => !b.done) = true ∧
    (oneTodoTask.update_status 50).status = "in progress..." := by
  refine ⟨by decide, by decide, rfl⟩

/-- C6: whenever `now > expiry_date`, `update_status` sets the status to
"expired", whatever the checklist looks like: the `(True, _, _)` match arm
wins. -/
theorem c6_expiry_dominates (t : Task) (now : Int)
    (h : now > t.expiry_date) :
    (t.update_status now).status = "expired" := by
  unfold Task.update_status Task.is_expired
  simp [h]

/-- C6 witness: a task expired in the past with both bullets done is
"expired", not "completed". -/
theorem c6_expiry_dominates_witness :
    ((Task.make 1 "A" "d" 100 "low"
        [{ text := "x", done := true }, { text := "y", done := true }]).update_status
      200).status = "expired" :=
  c6_expiry_dominates _ 200 (by decide)

/-- C9: `is_deletable` is true exactly when `now > expiry_date + 5 minutes`
(300 seconds), and is false at exactly `expiry_date + 5 minutes`. -/
theorem c9_deletable_window (t : Task) (now : Int) :
    (t.is_deletable now = true ↔ now > t.expiry_date + 5 * 60) ∧
    t.is_deletable (t.expiry_date + 5 * 60) = false := by
  constructor
  · exact decide_eq_true_iff
  · simp [Task.is_deletable]

/-- C9 witness: the empty-checklist task (expiry 100) is deletable at 401
(just past 100 + 300) and not deletable at exactly 400. -/
theorem c9_deletable_window_witness :
    emptyChecklistTask.is_deletable 401 = true ∧
    emptyChecklistTask.is_deletable (emptyChecklistTask.expiry_date + 5 * 60) = false :=
  ⟨(c9_deletable_window emptyChecklistTask 401).1.mpr (by decide),
    (c9_deletable_window emptyChecklistTask 401).2⟩

/-- One JSON object of the persisted array; `none` models an absent key, so
`d.get(key, default)` becomes `Option.getD`. -/
structure TaskDict where
  id : Option Nat := none
  title : Option String := none
  description : Option String := none
  created_date : Option Int := none
  expiry_date : Option Int := none
  priority : Option String := none
  status : Option String := none
  bullets : Option (List Bullet) := none
deriving DecidableEq

/-- The dict built for one task inside `TaskManager.to_dict`; every key is
written, and `created_date` is read via
`getattr(t, "created_date", datetime.now())`. -/
def task_to_dict (now : Int) (t : Task) : TaskDict :=
  { id := some t.id, title := some t.title, description := some t.description,
    created_date := some (t.created_date.getD now),
    expiry_date := some t.expiry_date, priority := some t.priority,
    status := some t.status, bullets := some t.bullets }

/-- `TaskManager.to_dict`: the list comprehension over `self.tasks`. -/
def to_dict (now : Int) (tasks : List Task) : List TaskDict :=
  tasks.map (task_to_dict now)

/-- The `Task(...)` construction plus the two attribute assignments inside
`TaskManager.from_dict`'s inner loop, with each `d.get(key, default)`
embedded as `Option.getD`. -/
def task_from_dict (now : Int) (d : TaskDict) : Task :=
  let task := Task.make (d.id.getD 0) (d.title.getD "Untitleed")
    (d.description.getD "no description") (d.expiry_date.getD now)
    (d.priority.getD "low") (d.bullets.getD [])
  { task with created_date := some (d.created_date.getD now),
              status := d.status.getD "not started" }

/-- `TaskManager.from_dict`.  The source contains two nested loops over the
same list, both written `for d in data` (the inner one shadowing the outer),
and the single `tasks` accumulator collects appends from the inner loop on
every outer iteration, so each dict is decoded `len(data)` times. -/
def from_dict (now : Int) (data : List TaskDict) : List Task :=
  data.foldl
    (fun tasks _ => data.foldl (fun tasks d => tasks ++ [task_from_dict now d]) tasks)
    []

/-- A concrete store of two (distinct) tasks for the round-trip check. -/
def twoTasks : List Task :=
  [Task.make 1 "A" "da" 100 "low" [],
   Task.make 2 "B" "db" 200 "high" [{ text := "x", done := true }]]

/-- C1: the claim says `load(save(tasks)) == tasks`, in particular that the
number of tasks is preserved.  Because `from_dict` iterates the decoded array
`len(data)` times (duplicated shadowed loop), a saved store of 2 tasks loads
back as 4 tasks. -/
theorem c1_roundtrip_count_bug :
    twoTasks.length = 2 ∧
    (from_dict 0 (to_dict 0 twoTasks)).length = 4 := by
  constructor <;> rfl

/-- `get_next_id(manager)`: 1 on an empty store, otherwise
`max(task.id for task in manager.tasks), default=0) + 1`. -/
def get_next_id (tasks : List Task) : Nat :=
  if tasks.isEmpty then 1
  else (tasks.map (fun t => t.id)).foldl max 0 + 1

/-- The body of `add_task`'s bullet-entry loop, run once per entered bullet
text: append the new bullet, compute `get_next_id`, build a `Task`, append it
to `manager.tasks`, and evaluate `manager.save` (an attribute access, not a
call — nothing is persisted).  All the appended `Task` objects share the one
`bullets` list object, so after the loop each of them holds the full final
bullet list `allBullets`. -/
def add_task_loop (title desc : String) (expiry : Int) (priority : String)
    (allBullets : List Bullet) : List Task → Nat → List Task
  | tasks, 0 => tasks
  | tasks, n + 1 =>
      let task := Task.make (get_next_id tasks) title desc expiry priority allBullets
      add_task_loop title desc expiry priority allBullets (tasks ++ [task]) n

/-- `add_task`, with the prompted values as parameters: the task creation,
append and (broken) save all sit inside the bullet-entry loop, so they run
once per bullet text; with no bullet entered nothing is appended.  The `Bool`
records whether `manager.save()` was ever called — it never is, because the
source says `manager.save` without parentheses. -/
def add_task (tasks : List Task) (title desc : String) (expiry : Int)
    (priority : String) (bulletTexts : List String) : List Task × Bool :=
  let allBullets := bulletTexts.map (fun s => { text := s, done := false })
  (add_task_loop title desc expiry priority allBullets tasks bulletTexts.length, false)

/-- C2: the claim says `add` appends exactly one task and persists the store.
Adding a task with two bullets to an empty store appends two tasks (one per
loop iteration of the misindented block), and the store is never persisted
(`manager.save` is not a call). -/
theorem c2_add_appends_per_bullet_bug :
    (add_task [] "t" "d" 100 "low" ["b1", "b2"]).1.length = 2 ∧
    (add_task [] "t" "d" 100 "low" ["b1", "b2"]).2 = false ∧
    (add_task [] "t" "d" 100 "low" []).1.length = 0 := by
  refine ⟨rfl, rfl, rfl⟩

/-- How `edit_task` ends: the task was updated and saved, the task was found
but locked ("Task is locked."), or the loop finished without a match
("Task ID not found."). -/
inductive EditOutcome where
  | updated
  | locked
  | notFound
deriving DecidableEq

/-- `edit_task`, with the prompted id and replacement values as parameters.
The source walks `manager.tasks`, calls `task.update_status()` on every task
it visits (also the ones before the match), and on the matching task either
stops on `lock_check()` or assigns `task.title`, `task.description` and —
through the misspelt attribute — `task.expiry_update` (NOT `task.expiry_date`),
then calls `manager.save()`.  Tasks after the match are left untouched because
the loop returns. -/
def edit_task : List Task → Nat → String → String → Int → Int →
    List Task × Bool × EditOutcome
  | [], _, _, _, _, _ => ([], false, .notFound)
  | t :: rest, task_id, nt, nd, ne, now =>
    let t2 := t.update_status now
    if t2.id = task_id then
      if t2.lock_check then (t2 :: rest, false, .locked)
      else
        ({ t2 with title := nt, description := nd, expiry_update := some ne } :: rest,
          true, .updated)
    else
      let r := edit_task rest task_id nt nd ne now
      (t2 :: r.1, r.2.1, r.2.2)

/-- C3: the claim says a successful edit mutates `expiryDate` to the supplied
value.  Editing the single unlocked task of a store with new expiry 999
succeeds and persists, but leaves `expiry_date` at 100: the source assigns
the parsed date to a fresh attribute `expiry_update` instead. -/
theorem c3_edit_expiry_not_updated_bug :
    (edit_task [oneTodoTask] 1 "nt" "nd" 999 50).2.2 = .updated ∧
    (edit_task [oneTodoTask] 1 "nt" "nd" 999 50).2.1 = true ∧
    (edit_task [oneTodoTask] 1 "nt" "nd" 999 50).1.map
        (fun t => (t.title, t.description, t.expiry_date, t.expiry_update)) =
      [("nt", "nd", (100 : Int), some (999 : Int))] := by
  refine ⟨rfl, rfl, rfl⟩

/-- Outcomes of bullet completion: `noAction` is the only one the program
ever produces (the id-entry loop's `break` exits before the working block);
the other constructors are the exits of the unreachable block below. -/
inductive BulletOutcome where
  | noAction
  | marked
  | alreadyDone
  | locked
  | notFound
  | noBullets
  | outOfRange
deriving DecidableEq

/-- `task.bullets[index]["done"] = True`: set the `done` flag of the bullet at
`i`, leaving the rest of the list alone. -/
def mark_done (bs : List Bullet) (i : Nat) : List Bullet :=
  bs.set i { bs.getD i { text := "", done := false } with done := true }

/-- In the source the found task object is mutated in place; in the embedded
immutable list this is replacing the first task carrying that id. -/
def replace_first_task : List Task → Nat → Task → List Task
  | [], _, _ => []
  | t :: rest, task_id, t2 =>
    if t.id = task_id then t2 :: rest
    else t :: replace_first_task rest task_id t2

/-- The statements of `complete_bullet` lines 219-282 — find the task with
`next(...)`, `lock_check()` on its cached status (no `update_status` first!),
`bool(task.bullets)`, the range test `0 <= index < len(task.bullets)`, the
already-done test, and the mark/recompute/save success branch — kept here as
a definition of what that block would compute.  In the program it is DEAD
CODE: the block is indented inside the `while True:` id-entry loop, after the
`break` that fires on a successful `int()` parse, so control never reaches
it (an invalid first entry instead crashes on the unbound `task_id`). -/
def complete_bullet_unreachable_block (tasks : List Task) (task_id : Nat)
    (index : Int) (now : Int) : List Task × Bool × BulletOutcome :=
  match tasks.find? (fun t => t.id == task_id) with
  | none => (tasks, false, .notFound)
  | some task =>
    if task.lock_check then (tasks, false, .locked)
    else if task.bullets.isEmpty then (tasks, false, .noBullets)
    else if 0 ≤ index ∧ index < task.bullets.length then
      let i := index.toNat
      if (task.bullets.getD i { text := "", done := false }).done then
        (tasks, false, .alreadyDone)
      else
        let task2 := ({ task with bullets := mark_done task.bullets i }).update_status now
        (replace_first_task tasks task_id task2, true, .marked)
    else (tasks, false, .outOfRange)

/-- `complete_bullet` as the program executes it: the `while True` loop reads
the id and `break`s on a successful parse, and everything else in the
function body sits inside that loop after the `break`, so the function
returns with the store untouched, nothing saved, and no outcome reported. -/
def complete_bullet (tasks : List Task) (_task_id : Nat) :
    List Task × Bool × BulletOutcome :=
  (tasks, false, .noAction)

/-- `update_status` only rewrites the `status` field; in particular the id is
kept. -/
theorem update_status_id (t : Task) (now : Int) :
    (t.update_status now).id = t.id := by
  unfold Task.update_status
  dsimp only
  split_ifs <;> rfl

/-- `lock_check` is true exactly on status "completed" or "expired": that
much of the lock rule is what the source's membership test says. -/
theorem lock_check_iff_status (t : Task) :
    t.lock_check = true ↔ (t.status = "completed" ∨ t.status = "expired") := by
  simp [Task.lock_check]

/-- The edit half of the lock rule holds: an edit reaching a task that is
locked after its status recompute reports `locked`, does not save, and
changes nothing beyond the status recomputes the loop already performed. -/
theorem edit_task_locked_frame :
    ∀ (pre post : List Task) (t : Task) (task_id : Nat) (nt nd : String)
      (ne now : Int),
      (∀ s ∈ pre, s.id ≠ task_id) → t.id = task_id →
      (t.update_status now).lock_check = true →
      edit_task (pre ++ t :: post) task_id nt nd ne now =
        (pre.map (fun s => s.update_status now) ++ t.update_status now :: post,
          false, .locked) := by
  intro pre
  induction pre with
  | nil =>
    intro post t task_id nt nd ne now _ hid hlock
    simp only [List.nil_append, edit_task, List.map_nil]
    rw [if_pos (by rw [update_status_id, hid]), if_pos hlock]
  | cons p pre ih =>
    intro post t task_id nt nd ne now hpre hid hlock
    have hp : p.id ≠ task_id := hpre p (List.mem_cons_self p pre)
    simp only [List.cons_append, edit_task, List.map_cons]
    rw [if_neg (by rw [update_status_id]; exact hp)]
    rw [List.append_eq, ih post t task_id nt nd ne now
      (fun s hs => hpre s (List.mem_cons_of_mem p hs)) hid hlock]

/-- The dead block would have implemented the bullet half of the lock rule:
had it run, a locked found task would report `locked` with no mutation and no
save.  The program never executes it. -/
theorem complete_bullet_unreachable_block_locked :
    ∀ (tasks : List Task) (task_id : Nat) (index now : Int) (t : Task),
      tasks.find? (fun s => s.id == task_id) = some t → t.lock_check = true →
      complete_bullet_unreachable_block tasks task_id index now =
        (tasks, false, .locked) := by
  intro tasks task_id index now t hfind hlock
  unfold complete_bullet_unreachable_block
  rw [hfind]
  simp [hlock]

/-- A concrete locked task: status "completed". -/
def lockedTask : Task :=
  { Task.make 1 "L" "d" 100 "low" [{ text := "x", done := true }] with
      status := "completed" }

/-- C7: the claim says bullet-completion on a locked task always fails with
LockedError.  On a store whose only task (id 1) is locked, `complete_bullet`
with the validly entered id 1 returns the store unchanged, saves nothing and
reports no locked failure at all: its entire working block — including the
`lock_check` test and the "is locked." exit — is unreachable behind the
id-entry loop's `break`. -/
theorem c7_bullet_locked_never_fails_bug :
    lockedTask.lock_check = true ∧
    complete_bullet [lockedTask] 1 = ([lockedTask], false, .noAction) ∧
    (complete_bullet [lockedTask] 1).2.2 ≠ .locked := by
  refine ⟨by decide, rfl, by decide⟩

/-- The dedup key computed in `remove_duplicates`:
`(t.title.strip().lower(), t.description.strip().lower(), t.expiry_date)`. -/
def dedup_key (t : Task) : String × String × Int :=
  (t.title.trim.toLower, t.description.trim.toLower, t.expiry_date)

/-- The loop of `TaskManager.remove_duplicates`: walk the store keeping a
`seen_tasks` set of keys; a task with an unseen key joins `unique_tasks` and
registers its key, a task with a seen key only bumps `duplicates_count`. -/
def remove_duplicates_aux :
    List Task → List (String × String × Int) → List Task × Nat
  | [], _ => ([], 0)
  | t :: rest, seen =>
    if dedup_key t ∈ seen then
      ((remove_duplicates_aux rest seen).1,
        (remove_duplicates_aux rest seen).2 + 1)
    else
      (t :: (remove_duplicates_aux rest (dedup_key t :: seen)).1,
        (remove_duplicates_aux rest (dedup_key t :: seen)).2)

/-- `TaskManager.remove_duplicates`: the loop starting from an empty seen
set; returns the retained tasks and the reported removal count. -/
def remove_duplicates (tasks : List Task) : List Task × Nat :=
  remove_duplicates_aux tasks []

/-- The claim's own wording, written independently of the seen-set loop:
keep each head and drop every later task carrying the same dedup key. -/
def keep_first_by_key : List Task → List Task
  | [] => []
  | t :: rest =>
    t :: keep_first_by_key (rest.filter (fun s => decide (dedup_key s ≠ dedup_key t)))
termination_by l => l.length
decreasing_by
  simp only [List.length_cons]
  exact Nat.lt_succ_of_le (List.length_filter_le _ _)

/-- Unfolding equation of `keep_first_by_key` on a cons cell. -/
theorem keep_first_by_key_cons (t : Task) (rest : List Task) :
    keep_first_by_key (t :: rest) =
      t :: keep_first_by_key
        (rest.filter (fun s => decide (dedup_key s ≠ dedup_key t))) := by
  simp [keep_first_by_key]

/-- Filtering the unseen keys and then dropping one more key is filtering
against the enlarged seen set. -/
theorem filter_unseen_cons (rest : List Task) (t : Task)
    (seen : List (String × String × Int)) :
    (rest.filter (fun s => decide (dedup_key s ∉ seen))).filter
        (fun s => decide (dedup_key s ≠ dedup_key t)) =
      rest.filter (fun s => decide (dedup_key s ∉ dedup_key t :: seen)) := by
  induction rest with
  | nil => rfl
  | cons a as ih =>
    by_cases h1 : dedup_key a = dedup_key t
    · by_cases h2 : dedup_key a ∈ seen
      · rw [h1] at h2
        simp [List.filter_cons, h1, h2, ih]
      · rw [h1] at h2
        simp [List.filter_cons, h1, h2, ih]
    · by_cases h2 : dedup_key a ∈ seen
      · simp [List.filter_cons, h1, h2, ih]
      · simp [List.filter_cons, h1, h2, ih]

/-- The seen-set loop keeps exactly the tasks whose key survives the `seen`
filter, in the claim's first-occurrence order. -/
theorem remove_duplicates_aux_fst (l : List Task) :
    ∀ seen, (remove_duplicates_aux l seen).1 =
      keep_first_by_key (l.filter (fun t => decide (dedup_key t ∉ seen))) := by
  induction l with
  | nil =>
    intro seen
    simp [remove_duplicates_aux, keep_first_by_key]
  | cons t rest ih =>
    intro seen
    by_cases h : dedup_key t ∈ seen
    · have e1 : remove_duplicates_aux (t :: rest) seen =
          ((remove_duplicates_aux rest seen).1,
            (remove_duplicates_aux rest seen).2 + 1) := by
        simp [remove_duplicates_aux, h]
      have e2 : (t :: rest).filter (fun s => decide (dedup_key s ∉ seen)) =
          rest.filter (fun s => decide (dedup_key s ∉ seen)) := by
        simp [List.filter_cons, h]
      rw [e1, e2]
      exact ih seen
    · have e1 : remove_duplicates_aux (t :: rest) seen =
          (t :: (remove_duplicates_aux rest (dedup_key t :: seen)).1,
            (remove_duplicates_aux rest (dedup_key t :: seen)).2) := by
        simp [remove_duplicates_aux, h]
      have e2 : (t :: rest).filter (fun s => decide (dedup_key s ∉ seen)) =
          t :: rest.filter (fun s => decide (dedup_key s ∉ seen)) := by
        simp [List.filter_cons, h]
      rw [e1, e2, keep_first_by_key_cons, filter_unseen_cons]
      simp only [List.cons.injEq, true_and]
      exact ih (dedup_key t :: seen)

/-- The loop never loses count: kept plus removed is the input length. -/
theorem remove_duplicates_aux_len (l : List Task) :
    ∀ seen, (remove_duplicates_aux l seen).1.length +
      (remove_duplicates_aux l seen).2 = l.length := by
  induction l with
  | nil => intro seen; rfl
  | cons t rest ih =>
    intro seen
    by_cases h : dedup_key t ∈ seen
    · have e1 : remove_duplicates_aux (t :: rest) seen =
          ((remove_duplicates_aux rest seen).1,
            (remove_duplicates_aux rest seen).2 + 1) := by
        simp [remove_duplicates_aux, h]
      rw [e1]
      have := ih seen
      simp only [List.length_cons]
      omega
    · have e1 : remove_duplicates_aux (t :: rest) seen =
          (t :: (remove_duplicates_aux rest (dedup_key t :: seen)).1,
            (remove_duplicates_aux rest (dedup_key t :: seen)).2) := by
        simp [remove_duplicates_aux, h]
      rw [e1]
      have := ih (dedup_key t :: seen)
      simp only [List.length_cons]
      omega

/-- C8: `remove_duplicates` returns exactly the claim's first-occurrence list
together with the number of tasks removed; in particular on a two-task store
whose tasks share the dedup key it keeps the first and reports one removal. -/
theorem c8_remove_duplicates_keeps_first :
    (∀ tasks : List Task,
      remove_duplicates tasks =
        (keep_first_by_key tasks,
          tasks.length - (keep_first_by_key tasks).length)) ∧
    (∀ a b : Task, dedup_key a = dedup_key b →
      remove_duplicates [a, b] = ([a], 1)) := by
  have hfst : ∀ tasks : List Task,
      (remove_duplicates tasks).1 = keep_first_by_key tasks := by
    intro tasks
    have h := remove_duplicates_aux_fst tasks []
    simpa [remove_duplicates] using h
  have hsnd : ∀ tasks : List Task,
      (remove_duplicates tasks).2 =
        tasks.length - (keep_first_by_key tasks).length := by
    intro tasks
    have hlen := remove_duplicates_aux_len tasks []
    have h1 := hfst tasks
    have h2 : (remove_duplicates tasks).1.length + (remove_duplicates tasks).2 =
        tasks.length := hlen
    rw [h1] at h2
    omega
  constructor
  · intro tasks
    exact Prod.ext (hfst tasks) (hsnd tasks)
  · intro a b hab
    have hb : keep_first_by_key [a, b] = [a] := by
      rw [keep_first_by_key_cons]
      simp [hab, keep_first_by_key]
    have h1 := hfst [a, b]
    have h2 := hsnd [a, b]
    rw [hb] at h1 h2
    simp only [List.length_cons, List.length_singleton] at h2
    exact Prod.ext h1 h2

/-- First of a concrete duplicate pair: key ("same", "d", 100). -/
def dupTaskA : Task :=
  Task.make 1 "same" "d" 100 "low" []

/-- Second of the pair: different id, priority and bullets, the same dedup
key. -/
def dupTaskB : Task :=
  Task.make 2 "same" "d" 100 "high" [{ text := "x", done := true }]

/-- C8 witness: the pair collides on the dedup key and only the first
survives, with one removal reported. -/
theorem c8_remove_duplicates_keeps_first_witness :
    remove_duplicates [dupTaskA, dupTaskB] = ([dupTaskA], 1) :=
  c8_remove_duplicates_keeps_first.2 dupTaskA dupTaskB rfl

/-- How `delete_task` ends: the pop-and-save branch, the "can not be deleted
yet" branch, the "Task ID not found." fallthrough, or the "No tasks to
delete." early return of the empty-store match arm. -/
inductive DeleteOutcome where
  | deleted
  | notDeletable
  | notFound
  | emptyStore
deriving DecidableEq

/-- The index-scanning `while` loop of `delete_task`: the first task whose id
matches decides the outcome — `pop(i)` plus `manager.save()` when
`is_deletable()` holds, otherwise nothing — and the loop `break`s; tasks
before the match stay in place, tasks after it are never looked at. -/
def delete_loop : List Task → Nat → Int → List Task × Bool × DeleteOutcome
  | [], _, _ => ([], false, .notFound)
  | t :: rest, task_id, now =>
    if t.id = task_id then
      if t.is_deletable now then (rest, true, .deleted)
      else (t :: rest, false, .notDeletable)
    else
      (t :: (delete_loop rest task_id now).1,
        (delete_loop rest task_id now).2.1,
        (delete_loop rest task_id now).2.2)

/-- `delete_task`, with the prompted id as a parameter: an empty store is
reported before anything else; otherwise the scan loop runs. -/
def delete_task (tasks : List Task) (task_id : Nat) (now : Int) :
    List Task × Bool × DeleteOutcome :=
  match tasks with
  | [] => ([], false, .emptyStore)
  | _ => delete_loop tasks task_id now

/-- Loop-level version of the C10 frame conditions. -/
theorem delete_loop_frame (tasks : List Task) (task_id : Nat) (now : Int) :
    ((delete_loop tasks task_id now).2.2 ≠ .deleted →
      (delete_loop tasks task_id now).1 = tasks ∧
      (delete_loop tasks task_id now).2.1 = false) ∧
    ((delete_loop tasks task_id now).2.2 = .deleted →
      (delete_loop tasks task_id now).2.1 = true ∧
      tasks.findIdx (fun t => t.id == task_id) < tasks.length ∧
      (∃ t, tasks[tasks.findIdx (fun t => t.id == task_id)]? = some t ∧
        t.id = task_id ∧ t.is_deletable now = true) ∧
      (delete_loop tasks task_id now).1 =
        tasks.eraseIdx (tasks.findIdx (fun t => t.id == task_id))) := by
  induction tasks with
  | nil =>
    refine ⟨fun _ => ⟨rfl, rfl⟩, fun h => absurd h (by simp [delete_loop])⟩
  | cons t rest ih =>
    by_cases hid : t.id = task_id
    · by_cases hdel : t.is_deletable now = true
      · have e1 : delete_loop (t :: rest) task_id now = (rest, true, .deleted) := by
          simp [delete_loop, hid, hdel]
        have hfi : (t :: rest).findIdx (fun s => s.id == task_id) = 0 := by
          simp [List.findIdx_cons, hid]
        refine ⟨fun h => absurd rfl (by rw [e1] at h; exact h), fun _ => ?_⟩
        rw [e1, hfi]
        exact ⟨rfl, Nat.succ_pos _, ⟨t, by simp, hid, hdel⟩, rfl⟩
      · have e1 : delete_loop (t :: rest) task_id now =
            (t :: rest, false, .notDeletable) := by
          simp [delete_loop, hid, hdel]
        refine ⟨fun _ => by rw [e1]; exact ⟨rfl, rfl⟩, fun h => ?_⟩
        rw [e1] at h
        exact absurd h (by simp)
    · have e1 : delete_loop (t :: rest) task_id now =
          (t :: (delete_loop rest task_id now).1,
            (delete_loop rest task_id now).2.1,
            (delete_loop rest task_id now).2.2) := by
        simp [delete_loop, hid]
      have hbeq : (t.id == task_id) = false := by
        simp [hid]
      have hfi : (t :: rest).findIdx (fun s => s.id == task_id) =
          rest.findIdx (fun s => s.id == task_id) + 1 := by
        simp [List.findIdx_cons, hbeq]
      constructor
      · intro h
        rw [e1] at h ⊢
        have := ih.1 h
        simp [this.1, this.2]
      · intro h
        rw [e1] at h ⊢
        obtain ⟨hs, hlt, ⟨u, hu, huid, hudel⟩, herase⟩ := ih.2 h
        rw [hfi]
        refine ⟨hs, by simpa using Nat.succ_lt_succ hlt, ⟨u, ?_, huid, hudel⟩, ?_⟩
        · simpa using hu
        · simp only [List.eraseIdx_cons_succ, List.cons.injEq, true_and]
          exact herase

/-- C10: delete is atomic and frame-preserving.  Any non-`deleted` outcome
(empty store, unknown id, task not yet deletable) leaves the store untouched
and unsaved; the `deleted` outcome saves and removes exactly the first task
carrying the requested id — a task that is deletable at `now` — leaving every
other task in place and in order (`eraseIdx` at the first matching index). -/
theorem c10_delete_atomic (tasks : List Task) (task_id : Nat) (now : Int) :
    ((delete_task tasks task_id now).2.2 ≠ .deleted →
      (delete_task tasks task_id now).1 = tasks ∧
      (delete_task tasks task_id now).2.1 = false) ∧
    ((delete_task tasks task_id now).2.2 = .deleted →
      (delete_task tasks task_id now).2.1 = true ∧
      tasks.findIdx (fun t => t.id == task_id) < tasks.length ∧
      (∃ t, tasks[tasks.findIdx (fun t => t.id == task_id)]? = some t ∧
        t.id = task_id ∧ t.is_deletable now = true) ∧
      (delete_task tasks task_id now).1 =
        tasks.eraseIdx (tasks.findIdx (fun t => t.id == task_id))) := by
  match tasks with
  | [] =>
    refine ⟨fun _ => ⟨rfl, rfl⟩, fun h => absurd h (by simp [delete_task])⟩
  | t :: rest =>
    have e1 : delete_task (t :: rest) task_id now =
        delete_loop (t :: rest) task_id now := rfl
    rw [e1]
    exact delete_loop_frame (t :: rest) task_id now

/-- C10 witness: deleting from an empty store fails and changes nothing;
deleting id 1 from a two-task store at a time past expiry + 5 minutes
succeeds, saves, and erases exactly the first task. -/
theorem c10_delete_atomic_witness :
    ((delete_task [] 1 0).1 = [] ∧ (delete_task [] 1 0).2.1 = false) ∧
    ((delete_task [emptyChecklistTask, dupTaskB] 1 1000).2.1 = true ∧
      (delete_task [emptyChecklistTask, dupTaskB] 1 1000).1 =
        [emptyChecklistTask, dupTaskB].eraseIdx
          ([emptyChecklistTask, dupTaskB].findIdx (fun t => t.id == 1))) := by
  refine ⟨(c10_delete_atomic [] 1 0).1 (by decide), ?_, ?_⟩
  · exact ((c10_delete_atomic [emptyChecklistTask, dupTaskB] 1 1000).2
      (by decide)).1
  · exact ((c10_delete_atomic [emptyChecklistTask, dupTaskB] 1 1000).2
      (by decide)).2.2.2

end TaskMgr
